import Mathlib

/-!
Shallow embedding of the neuralhydrology "Adding a New Model" tutorial
(examples/02-Adding-Models/adding-gru.ipynb) and its sample run
configuration.  The notebook defines a `GRU` model class (constructor and
forward pass) and prints the source of the `get_model` factory of
`neuralhydrology.modelzoo`.  External library pieces (the PyTorch `nn.GRU`
core, `nn.Dropout`, the `InputLayer` embedding network, the `get_head`
head factory and the `BaseModel` base class) are not part of the shown
sources; they are modelled from the spec by their documented sizing and
shape contracts.  Tensors are modelled by their shapes: every claim below
is about dictionary keys, shapes and control flow, never about numeric
values, and the numeric tensor math is explicitly delegated to the
external library by the spec.
-/

namespace NH

/-- The run configuration, a key-value record (from the notebook's `Config`
usage and the sample YAML configuration): model name, hidden size, dropout
rate, frequency list, feature lists, target variables. The dropout rate is
kept as a rational number. -/
structure Config where
  model : String
  hidden_size : Nat
  output_dropout : Rat
  use_frequencies : List String
  target_variables : List String
  dynamic_inputs : List String
  static_attributes : List String
deriving DecidableEq, Repr

/-- A tensor, modelled by its shape (the claims concern shapes and keys
only; numeric contents live in the external numerical library, which the
spec puts out of scope). -/
structure Tensor where
  shape : List Nat
deriving DecidableEq, Repr

/-- `t.transpose i j` swaps dimensions `i` and `j`, as the source's
`.transpose(0, 1)` calls do. -/
def Tensor.transpose (t : Tensor) (i j : Nat) : Tensor :=
  { shape := (t.shape.set i (t.shape.getD j 0)).set j (t.shape.getD i 0) }

/-- A prediction dictionary: an ordered mapping from names to tensors,
as the models' forward methods accept and return. -/
abbrev PredDict : Type := List (String × Tensor)

/-- Key lookup in a prediction dictionary (Python `d[k]`). -/
def lookup (d : PredDict) (k : String) : Option Tensor :=
  (List.find? (fun kv => kv.1 == k) d).map (fun kv => kv.2)

/-- The keys of a prediction dictionary. -/
def keys (d : PredDict) : List String :=
  d.map (fun kv => kv.1)

/-- Python `d.update(u)`: existing keys keep their position but take the
value from `u` when `u` has the key; keys of `u` absent from `d` are
appended in order. -/
def updateDict (d u : PredDict) : PredDict :=
  (d.map (fun kv =>
    match List.find? (fun kv2 => kv2.1 == kv.1) u with
    | some kv2 => (kv.1, kv2.2)
    | none => kv))
  ++ u.filter (fun kv2 => ¬ (d.any (fun kv => kv.1 == kv2.1)))

/-- An input batch for a single-timescale model, following the notebook's
shape table: a dictionary of dynamic feature tensors of shape
`[batch size, sequence length, features]`, optional static features and
optional one-hot basin encoding.  The batch size and sequence length are
recorded directly. -/
structure Batch where
  batch_size : Nat
  seq_length : Nat
  x_d : List (String × Tensor)
  x_s : Option Tensor
  x_one_hot : Option Tensor
deriving DecidableEq, Repr

/-- Modelled from the spec: the `InputLayer` of
`neuralhydrology.modelzoo.inputlayer` is not in the shown sources.  The
spec sizes the input-embedding transform by the configuration-declared
static/dynamic feature counts; we record its output width. -/
structure InputLayer where
  output_size : Nat
deriving DecidableEq, Repr

/-- Modelled from the spec: construction of the `InputLayer` from the
configuration ("an input-embedding transform sized by
configuration-declared static/dynamic feature counts").  The
configuration is threaded through unchanged, as the source never writes
to it. -/
def InputLayer.ofConfig (cfg : Config) : InputLayer × Config :=
  ({ output_size := cfg.dynamic_inputs.length + cfg.static_attributes.length }, cfg)

/-- Modelled from the spec: application of the `InputLayer`.  The notebook
says it merges the static inputs to each step of the dynamic inputs and
returns a single tensor that can be passed to the GRU cell; the GRU core
consumes sequence-first input, so the result has shape
`[sequence length, batch size, output width]`. -/
def InputLayer.run (layer : InputLayer) (data : Batch)
    (concatenate_output : Bool) : Tensor :=
  if concatenate_output then
    { shape := [data.seq_length, data.batch_size, layer.output_size] }
  else
    { shape := [data.seq_length, data.batch_size, layer.output_size] }

/-- The recurrent core `nn.GRU(input_size=..., hidden_size=...)`: an
external library module, recorded by its two sizing arguments. -/
structure GRUCore where
  input_size : Nat
  hidden_size : Nat
deriving DecidableEq, Repr

/-- Modelled from the spec: the external library's GRU shape contract.
On input of shape `[seq, batch, input_size]` it returns the per-step
output of shape `[seq, batch, hidden_size]` and the final hidden state of
shape `[1, batch, hidden_size]`. -/
def GRUCore.run (g : GRUCore) (x : Tensor) : Tensor × Tensor :=
  ({ shape := [x.shape.getD 0 0, x.shape.getD 1 0, g.hidden_size] },
   { shape := [1, x.shape.getD 1 0, g.hidden_size] })

/-- `nn.Dropout(p=...)`: an external library module recorded by its rate. -/
structure Dropout where
  p : Rat
deriving DecidableEq, Repr

/-- Modelled from the spec: dropout is a shape-preserving transform. -/
def Dropout.run (_d : Dropout) (t : Tensor) : Tensor :=
  t

/-- The output head returned by `get_head(cfg=..., n_in=..., n_out=...)`,
recorded by its sizing arguments (its definition is not in the shown
sources). -/
structure Head where
  n_in : Nat
  n_out : Nat
deriving DecidableEq, Repr

/-- Modelled from the spec: `get_head` of `neuralhydrology.modelzoo.head`
is not in the shown sources; the spec sizes the head by the hidden width
`n_in` and the number of target variables `n_out`.  The configuration is
threaded through unchanged. -/
def get_head (cfg : Config) (n_in n_out : Nat) : Head × Config :=
  ({ n_in := n_in, n_out := n_out }, cfg)

/-- Modelled from the spec: the head is the final transformation from the
hidden representation to the predicted target, applied at every time step;
it returns a dictionary containing the prediction key.  On input of shape
`[batch, seq, n_in]` the prediction has shape `[batch, seq, n_out]`. -/
def Head.run (h : Head) (t : Tensor) : PredDict :=
  [("y_hat", { shape := [t.shape.getD 0 0, t.shape.getD 1 0, h.n_out] })]

/-- Modelled from the spec: `BaseModel.output_size` is not in the shown
sources; per the spec the output head's output width is "the number of
target variables" of the configuration. -/
def outputSize (cfg : Config) : Nat :=
  cfg.target_variables.length

/-- The GRU model of the notebook: its three wired sub-parts
(`module_parts = ['embedding_net', 'gru', 'head']`) plus the dropout
module and the inherited output size. -/
structure GRUModel where
  embedding_net : InputLayer
  gru : GRUCore
  dropout : Dropout
  head : Head
  output_size : Nat
deriving DecidableEq, Repr

/-- The notebook's `module_parts` class attribute. -/
def GRUModel.module_parts : List String :=
  ["embedding_net", "gru", "head"]

/-- `GRU.__init__(cfg)`: wires the embedding net, the GRU core sized by
the embedding's output size and the configured hidden size, the dropout,
and the head sized by the hidden size and the model's output size.  The
configuration is threaded through every construction step and returned,
to state that it is never modified. -/
def GRUModel.init (cfg : Config) : GRUModel × Config :=
  let (embedding_net, cfg1) := InputLayer.ofConfig cfg
  let gru : GRUCore := { input_size := embedding_net.output_size, hidden_size := cfg1.hidden_size }
  let dropout : Dropout := { p := cfg1.output_dropout }
  let (head, cfg2) := get_head cfg1 cfg1.hidden_size (outputSize cfg1)
  ({ embedding_net := embedding_net, gru := gru, dropout := dropout,
     head := head, output_size := outputSize cfg1 }, cfg2)

/-- Build the final prediction dictionary as the source does:
`pred = {'h_n': h_n}` followed by `pred.update(head_output)`. -/
def buildPred (h_n : Tensor) (headOut : PredDict) : PredDict :=
  updateDict [("h_n", h_n)] headOut

/-- `GRU.forward(data)`, translated line by line from the notebook:
embed and concatenate the inputs, run the GRU core, transpose the final
hidden state, start the prediction dictionary with it, and update it with
the head applied to the dropout of the transposed GRU output. -/
def GRUModel.forward (m : GRUModel) (data : Batch) : PredDict :=
  let x_d := m.embedding_net.run data true
  let (gru_output, h_n0) := m.gru.run x_d
  let h_n := h_n0.transpose 0 1
  buildPred h_n (m.head.run (m.dropout.run (gru_output.transpose 0 1)))

/-- The stages of the forward pipeline, for stating that the pass is a
fixed linear pipeline. -/
inductive Step where
  | embed
  | run_gru
  | apply_dropout
  | apply_head
  | merge
deriving DecidableEq, Repr

/-- `GRU.forward` instrumented with the list of stages it executes, in
order; the computation is the same translation as `GRUModel.forward`. -/
def GRUModel.forwardSteps (m : GRUModel) (data : Batch) :
    List Step × PredDict :=
  let x_d := m.embedding_net.run data true
  let (gru_output, h_n0) := m.gru.run x_d
  let h_n := h_n0.transpose 0 1
  let headOut := m.head.run (m.dropout.run (gru_output.transpose 0 1))
  ([Step.embed, Step.run_gru, Step.apply_dropout, Step.apply_head, Step.merge],
   buildPred h_n headOut)

/-- The model instance returned by the factory.  Only the `GRU` class is
defined in the shown sources; the other model classes
(`CudaLSTM`, `EALSTM`, `CustomLSTM`, `EmbCudaLSTM`, `MTSLSTM`, `ODELSTM`)
are modelled as constructors recording the configuration they were
constructed with, as each is invoked as `Class(cfg=cfg)`. -/
inductive Model where
  | cudalstm (cfg : Config)
  | ealstm (cfg : Config)
  | customlstm (cfg : Config)
  | gru (m : GRUModel)
  | embcudalstm (cfg : Config)
  | mtslstm (cfg : Config)
  | odelstm (cfg : Config)
deriving DecidableEq, Repr

/-- The class name of a constructed model instance. -/
def Model.className : Model → String
  | .cudalstm _ => "CudaLSTM"
  | .ealstm _ => "EALSTM"
  | .customlstm _ => "CustomLSTM"
  | .gru _ => "GRU"
  | .embcudalstm _ => "EmbCudaLSTM"
  | .mtslstm _ => "MTSLSTM"
  | .odelstm _ => "ODELSTM"

/-- The errors `get_model` can raise. -/
inductive ModelError where
  | valueError (msg : String)
  | notImplementedError (msg : String)
deriving DecidableEq, Repr

/-- The model identifiers the factory dispatches on, in source order. -/
def supportedIdentifiers : List String :=
  ["cudalstm", "ealstm", "customlstm", "lstm", "gru", "embcudalstm",
   "mtslstm", "odelstm"]

/-- Modelled from the spec: `get_model` references `SINGLE_FREQ_MODELS`,
whose definition is not in the shown sources.  Per the spec, models
requiring single-frequency input reject configurations declaring more
than one frequency; the notebook names the MTS-LSTM (and the ODE-LSTM of
the sample configuration's timescale options) as the multi-timescale
models and treats the remaining classes, the example GRU included, as
single-timescale.  We model the set as every supported identifier except
the multi-timescale models. -/
def SINGLE_FREQ_MODELS : List String :=
  ["cudalstm", "ealstm", "customlstm", "lstm", "gru", "embcudalstm"]

/-- The deprecation warning text emitted for the identifier "lstm". -/
def lstmDeprecationWarning : String :=
  "The LSTM class has been renamed to CustomLSTM. Support for LSTM will we dropped in the future."

/-- The outcome of a `get_model` call, instrumented for the stated
properties: the warnings emitted, the model constructors invoked in
order, the result (a model or a raised error), and the configuration as
it stands after the call (the source never writes to it, and the
translation threads it through to state exactly that). -/
structure FactoryOutcome where
  warnings : List String
  constructed : List String
  result : Except ModelError Model
  cfg_out : Config
deriving Repr

/-- `get_model(cfg)`, translated branch by branch from the source printed
in the notebook: first the single-frequency check raising `ValueError`,
then the chain of identifier comparisons each constructing the matching
class ("lstm" warning a `FutureWarning` and constructing `CustomLSTM`),
and finally the `NotImplementedError` for everything else. -/
def get_model (cfg : Config) : FactoryOutcome :=
  if cfg.model ∈ SINGLE_FREQ_MODELS ∧ cfg.use_frequencies.length > 1 then
    { warnings := [], constructed := [],
      result := .error (.valueError
        ("Model " ++ cfg.model ++ " does not support multiple frequencies.")),
      cfg_out := cfg }
  else if cfg.model = "cudalstm" then
    { warnings := [], constructed := ["CudaLSTM"],
      result := .ok (.cudalstm cfg), cfg_out := cfg }
  else if cfg.model = "ealstm" then
    { warnings := [], constructed := ["EALSTM"],
      result := .ok (.ealstm cfg), cfg_out := cfg }
  else if cfg.model = "customlstm" then
    { warnings := [], constructed := ["CustomLSTM"],
      result := .ok (.customlstm cfg), cfg_out := cfg }
  else if cfg.model = "lstm" then
    { warnings := [lstmDeprecationWarning], constructed := ["CustomLSTM"],
      result := .ok (.customlstm cfg), cfg_out := cfg }
  else if cfg.model = "gru" then
    { warnings := [], constructed := ["GRU"],
      result := .ok (.gru (GRUModel.init cfg).1),
      cfg_out := (GRUModel.init cfg).2 }
  else if cfg.model = "embcudalstm" then
    { warnings := [], constructed := ["EmbCudaLSTM"],
      result := .ok (.embcudalstm cfg), cfg_out := cfg }
  else if cfg.model = "mtslstm" then
    { warnings := [], constructed := ["MTSLSTM"],
      result := .ok (.mtslstm cfg), cfg_out := cfg }
  else if cfg.model = "odelstm" then
    { warnings := [], constructed := ["ODELSTM"],
      result := .ok (.odelstm cfg), cfg_out := cfg }
  else
    { warnings := [], constructed := [],
      result := .error (.notImplementedError
        (cfg.model ++ " not implemented or not linked in get_model()")),
      cfg_out := cfg }

/-- The class the factory is specified to construct for each supported
identifier; the deprecated identifier "lstm" maps to its replacement
class `CustomLSTM`. -/
def expectedClass (ident : String) : String :=
  if ident = "cudalstm" then "CudaLSTM"
  else if ident = "ealstm" then "EALSTM"
  else if ident = "customlstm" then "CustomLSTM"
  else if ident = "lstm" then "CustomLSTM"
  else if ident = "gru" then "GRU"
  else if ident = "embcudalstm" then "EmbCudaLSTM"
  else if ident = "mtslstm" then "MTSLSTM"
  else if ident = "odelstm" then "ODELSTM"
  else ""

/-- Whether a factory result is a constructed model (as opposed to a
raised error). -/
def isOk : Except ModelError Model → Bool
  | .ok _ => true
  | .error _ => false

/-- A concrete configuration following the sample YAML configuration of
the repository (model `mtslstm`, hidden size 16, dropout 0.4, the two
frequencies 1D and 1h, one target variable, two dynamic inputs, two
static attributes). -/
def baseCfg : Config :=
  { model := "mtslstm", hidden_size := 16, output_dropout := 2/5,
    use_frequencies := ["1D", "1h"],
    target_variables := ["qobs_mm_per_hour"],
    dynamic_inputs := ["total_precipitation", "temperature"],
    static_attributes := ["elev_mean", "slope_mean"] }

/-- The sample configuration redirected to the supported single-frequency
identifier `cudalstm` while keeping its two declared frequencies. -/
def cfgCudaMulti : Config := { baseCfg with model := "cudalstm" }

/-- The sample configuration redirected to `gru` with a single declared
frequency. -/
def cfgGruSingle : Config :=
  { baseCfg with model := "gru", use_frequencies := ["1D"] }

/-- The sample configuration redirected to `gru` while keeping its two
declared frequencies. -/
def cfgGruMulti : Config := { baseCfg with model := "gru" }

/-- The sample configuration redirected to an identifier outside the
supported set. -/
def cfgUnknown : Config := { baseCfg with model := "transformer" }

/-- The sample configuration redirected to the deprecated identifier
`lstm` while keeping its two declared frequencies. -/
def cfgLstmMulti : Config := { baseCfg with model := "lstm" }

/-- The sample configuration redirected to the deprecated identifier
`lstm` with a single declared frequency. -/
def cfgLstmSingle : Config :=
  { baseCfg with model := "lstm", use_frequencies := ["1D"] }

/-- Every single-frequency identifier is a supported identifier. -/
lemma single_freq_subset_supported :
    ∀ s ∈ SINGLE_FREQ_MODELS, s ∈ supportedIdentifiers := by
  decide

/-- C2: for every configuration whose model identifier is in
`SINGLE_FREQ_MODELS` and whose `use_frequencies` list declares more than
one frequency, `get_model` fails with the "does not support multiple
frequencies" `ValueError` and constructs no model. -/
theorem claim2_single_freq_multi_freq_error (cfg : Config)
    (hm : cfg.model ∈ SINGLE_FREQ_MODELS)
    (hf : cfg.use_frequencies.length > 1) :
    (get_model cfg).result = Except.error (ModelError.valueError
      ("Model " ++ cfg.model ++ " does not support multiple frequencies.")) ∧
    (get_model cfg).constructed = [] := by
  unfold get_model
  rw [if_pos ⟨hm, hf⟩]
  exact ⟨rfl, rfl⟩

/-- C2 witness: the sample configuration with model `gru` and its two
declared frequencies triggers the `ValueError` and constructs nothing. -/
theorem claim2_witness :
    (get_model cfgGruMulti).result = Except.error (ModelError.valueError
      "Model gru does not support multiple frequencies.") ∧
    (get_model cfgGruMulti).constructed = [] :=
  claim2_single_freq_multi_freq_error cfgGruMulti (by decide) (by decide)

/-- C3: for every configuration whose model identifier is outside the
supported set, `get_model` fails with the "not implemented"
`NotImplementedError` and constructs no model. -/
theorem claim3_unsupported_identifier_error (cfg : Config)
    (h : cfg.model ∉ supportedIdentifiers) :
    (get_model cfg).result = Except.error (ModelError.notImplementedError
      (cfg.model ++ " not implemented or not linked in get_model()")) ∧
    (get_model cfg).constructed = [] := by
  have hsf : ¬ (cfg.model ∈ SINGLE_FREQ_MODELS ∧
      cfg.use_frequencies.length > 1) := by
    rintro ⟨hm, -⟩
    exact h (single_freq_subset_supported _ hm)
  simp only [supportedIdentifiers, List.mem_cons, List.not_mem_nil,
    or_false, not_or] at h
  obtain ⟨h1, h2, h3, h4, h5, h6, h7, h8⟩ := h
  unfold get_model
  rw [if_neg hsf, if_neg h1, if_neg h2, if_neg h3, if_neg h4, if_neg h5,
    if_neg h6, if_neg h7, if_neg h8]
  exact ⟨rfl, rfl⟩

/-- C3 witness: the sample configuration with the unsupported identifier
`transformer` fails with the `NotImplementedError`. -/
theorem claim3_witness :
    (get_model cfgUnknown).result = Except.error
      (ModelError.notImplementedError
        "transformer not implemented or not linked in get_model()") ∧
    (get_model cfgUnknown).constructed = [] :=
  claim3_unsupported_identifier_error cfgUnknown (by decide)

/-- C8: whenever `get_model` raises an error, no model constructor has
been invoked: the list of constructor invocations is empty. -/
theorem claim8_error_before_construction (cfg : Config) (e : ModelError)
    (h : (get_model cfg).result = Except.error e) :
    (get_model cfg).constructed = [] := by
  unfold get_model at h ⊢
  split_ifs at h ⊢ <;> simp_all

/-- C8 witness: for the sample configuration with the unsupported
identifier `transformer`, the error surfaces with no constructor
invoked. -/
theorem claim8_witness : (get_model cfgUnknown).constructed = [] :=
  claim8_error_before_construction cfgUnknown
    (ModelError.notImplementedError
      "transformer not implemented or not linked in get_model()") rfl

/-- C9: the configuration is never modified: `get_model`, the GRU
constructor, the input-layer construction and the head construction all
return the configuration exactly as it was passed in. -/
theorem claim9_config_unchanged (cfg : Config) :
    (get_model cfg).cfg_out = cfg ∧
    (GRUModel.init cfg).2 = cfg ∧
    (InputLayer.ofConfig cfg).2 = cfg ∧
    (get_head cfg cfg.hidden_size (outputSize cfg)).2 = cfg := by
  refine ⟨?_, rfl, rfl, rfl⟩
  unfold get_model
  split_ifs <;> rfl

/-- C1 counterexample: `cudalstm` is a supported identifier, yet for the
sample configuration (which declares two frequencies) redirected to
`cudalstm`, `get_model` raises the `ValueError` of the single-frequency
check and returns no constructed instance. -/
theorem claim1_counterexample :
    cfgCudaMulti.model ∈ supportedIdentifiers ∧
    isOk (get_model cfgCudaMulti).result = false ∧
    (get_model cfgCudaMulti).result = Except.error (ModelError.valueError
      "Model cudalstm does not support multiple frequencies.") := by
  refine ⟨by decide, rfl, rfl⟩

/-- C1 (amended): for every configuration whose model identifier is one
of the supported identifiers and which does not trip the
single-frequency check (at most one declared frequency whenever the
identifier is in `SINGLE_FREQ_MODELS`), `get_model` returns a
constructed instance of the class matched to that identifier. -/
theorem claim1_supported_dispatch (cfg : Config)
    (hmem : cfg.model ∈ supportedIdentifiers)
    (hfreq : cfg.model ∈ SINGLE_FREQ_MODELS →
      cfg.use_frequencies.length ≤ 1) :
    ∃ m : Model, (get_model cfg).result = Except.ok m ∧
      m.className = expectedClass cfg.model := by
  have hsf : ¬ (cfg.model ∈ SINGLE_FREQ_MODELS ∧
      cfg.use_frequencies.length > 1) := by
    rintro ⟨hm, hl⟩
    exact absurd hl (by simpa using hfreq hm)
  simp only [supportedIdentifiers, List.mem_cons, List.not_mem_nil,
    or_false] at hmem
  unfold get_model
  rw [if_neg hsf]
  rcases hmem with h|h|h|h|h|h|h|h <;>
    simp [h, Model.className, expectedClass]

/-- C1 witness: the sample configuration redirected to `gru` with a
single declared frequency yields a constructed instance of class GRU. -/
theorem claim1_witness :
    ∃ m : Model, (get_model cfgGruSingle).result = Except.ok m ∧
      m.className = expectedClass "gru" :=
  claim1_supported_dispatch cfgGruSingle (by decide) (fun _ => by decide)

/-- C4 counterexample: for the sample configuration (two declared
frequencies) redirected to the deprecated identifier `lstm`, `get_model`
raises the single-frequency `ValueError` without emitting any warning
and returns no instance. -/
theorem claim4_counterexample :
    cfgLstmMulti.model = "lstm" ∧
    (get_model cfgLstmMulti).warnings = [] ∧
    isOk (get_model cfgLstmMulti).result = false := by
  exact ⟨rfl, rfl, rfl⟩

/-- C4 (amended): for every configuration whose model identifier is the
deprecated name `lstm` and which declares at most one frequency,
`get_model` emits the deprecation warning and constructs a `CustomLSTM`
instance, invoking the same constructor as for the identifier
`customlstm`. -/
theorem claim4_lstm_deprecated_alias (cfg : Config)
    (h : cfg.model = "lstm")
    (hf : cfg.use_frequencies.length ≤ 1) :
    (get_model cfg).warnings = [lstmDeprecationWarning] ∧
    (get_model cfg).result = Except.ok (Model.customlstm cfg) ∧
    (get_model cfg).constructed =
      (get_model { cfg with model := "customlstm" }).constructed := by
  have hsf : ¬ (cfg.model ∈ SINGLE_FREQ_MODELS ∧
      cfg.use_frequencies.length > 1) := by
    rintro ⟨-, hl⟩
    omega
  have hc : (get_model { cfg with model := "customlstm" }).constructed =
      ["CustomLSTM"] := by
    have hsf2 : ¬ (({ cfg with model := "customlstm" } : Config).model ∈
        SINGLE_FREQ_MODELS ∧
        ({ cfg with model := "customlstm" } : Config).use_frequencies.length > 1) := by
      rintro ⟨-, hl⟩
      simp only at hl
      omega
    unfold get_model
    rw [if_neg hsf2]
    simp
  rw [hc]
  unfold get_model
  rw [if_neg hsf]
  simp [h]

/-- C4 witness: the sample configuration redirected to `lstm` with a
single declared frequency produces the deprecation warning and a
`CustomLSTM` instance, through the same constructor as `customlstm`. -/
theorem claim4_witness :
    (get_model cfgLstmSingle).warnings = [lstmDeprecationWarning] ∧
    (get_model cfgLstmSingle).result =
      Except.ok (Model.customlstm cfgLstmSingle) ∧
    (get_model cfgLstmSingle).constructed =
      (get_model { cfgLstmSingle with model := "customlstm" }).constructed :=
  claim4_lstm_deprecated_alias cfgLstmSingle rfl (by decide)

/-- C5: the forward pass is a fixed linear pipeline: for every model and
every input batch the instrumented forward pass executes exactly the
stages embed, run the GRU core, apply dropout, apply the head, merge --
in this order -- and computes the same prediction dictionary as
`GRUModel.forward`. -/
theorem claim5_forward_fixed_pipeline (m : GRUModel) (data : Batch) :
    (m.forwardSteps data).1 =
      [Step.embed, Step.run_gru, Step.apply_dropout, Step.apply_head,
       Step.merge] ∧
    (m.forwardSteps data).2 = m.forward data :=
  ⟨rfl, rfl⟩

/-- C6: for every model and input batch, the forward pass returns a
dictionary containing the key `y_hat`, whose tensor has one prediction
per time step of the full input sequence (shape
`[batch size, sequence length, head output width]`). -/
theorem claim6_yhat_full_sequence (m : GRUModel) (data : Batch) :
    lookup (m.forward data) "y_hat" =
      some { shape := [data.batch_size, data.seq_length, m.head.n_out] } :=
  rfl

/-- C7: the GRU constructor wires its three sub-parts in fixed order with
the specified sizing: the embedding layer is built from the
configuration, the recurrent core's input width is the embedding layer's
output width and its hidden width is the configured hidden size, and the
head's input width is the configured hidden size and its output width is
the number of target variables. -/
theorem claim7_constructor_wiring (cfg : Config) :
    (GRUModel.init cfg).1.embedding_net = (InputLayer.ofConfig cfg).1 ∧
    (GRUModel.init cfg).1.gru.input_size =
      (GRUModel.init cfg).1.embedding_net.output_size ∧
    (GRUModel.init cfg).1.gru.hidden_size = cfg.hidden_size ∧
    (GRUModel.init cfg).1.head.n_in = cfg.hidden_size ∧
    (GRUModel.init cfg).1.head.n_out = cfg.target_variables.length ∧
    GRUModel.module_parts = ["embedding_net", "gru", "head"] :=
  ⟨rfl, rfl, rfl, rfl, rfl, rfl⟩

/-- C10: the result dictionary starts from the transposed final hidden
state under `h_n` and is then merged with the head's output: whatever
dictionary the head returns, the merged dictionary maps `h_n` to the
head's value when the head's output contains the key (the update
overwrites) and to the hidden state otherwise; consequently every
forward pass returns a dictionary containing `h_n`. -/
theorem claim10_hn_key_and_overwrite :
    (∀ (hn : Tensor) (u : PredDict),
      lookup (buildPred hn u) "h_n" =
        some (Option.getD (lookup u "h_n") hn)) ∧
    (∀ (m : GRUModel) (data : Batch),
      (lookup (m.forward data) "h_n").isSome = true) := by
  constructor
  · intro hn u
    cases hfind : List.find? (fun kv => kv.1 == "h_n") u <;>
      simp [buildPred, updateDict, lookup, hfind]
  · intro m data
    rfl

end NH
